import Mathlib

/-!
Verification of the MiKyoku hybrid retrieval-and-learning loop.

The repository is a React frontend (`src/frontend`) talking to a FastAPI
backend that maintains a CLIP/FAISS vector collection.  The frontend client
(`src/frontend/services/backendClient.ts`), the app orchestration
(`src/frontend/App.tsx`) and the upload component are embedded directly from
their TypeScript source.  The backend RAG core (router, vector store,
ingestion manager) is not part of the source tree, so those operations are
modelled from the specification (sections 4.2 to 4.5 of the spec and
`src/docs/retrieval_specs.md`); each such definition is marked
`Modelled from the spec:` in its doc comment.
-/

namespace MiKyoku

/-- Images are abstracted by an identifier; the embedder is an explicit
function argument everywhere, which makes it deterministic by construction
(the spec requires determinism for identical input bytes). -/
abbrev Image := Nat

/-- Identification source tag, from `backendClient.ts` (`'gemini' |
'user_correction' | 'manual'`), mirroring the spec's provenance values. -/
inductive Source
  | gemini
  | userCorrection
  | manual
deriving DecidableEq

/-- Modelled from the spec: one known subject of the collection (spec section 3,
and the JSON metadata structure of `src/docs/retrieval_specs.md` section 5).
The backend `database/storage.py` is not in the source tree. -/
structure Entry where
  slug : String
  canonicalLabel : String
  embedding : List ℚ
  assetPath : Option String
  provenance : Source
deriving DecidableEq

/-- Modelled from the spec: the loaded (VectorIndex, id mapping, MetadataStore,
asset directory) unit of consistency (spec section 6); the backend
`rag/vector_store.py` and `database/storage.py` are not in the source tree. -/
structure RagState where
  vectors : List (List ℚ)
  idMap : List String
  metadata : List Entry
  assets : List String
deriving DecidableEq

/-- Empty collection, used as the initial state. -/
def emptyState : RagState := ⟨[], [], [], []⟩

/-- Consistency invariant of spec section 3: vector count, id-mapping count and
metadata record count agree. -/
def consistent (st : RagState) : Prop :=
  st.vectors.length = st.idMap.length ∧ st.idMap.length = st.metadata.length

instance (st : RagState) : Decidable (consistent st) := by
  unfold consistent; infer_instance

/-- Inner product of two embedding vectors; for L2-normalized vectors this is
the cosine similarity used as the match score (spec glossary). -/
def dot : List ℚ → List ℚ → ℚ
  | [], _ => 0
  | _, [] => 0
  | a :: as, b :: bs => a * b + dot as bs

/-- Modelled from the spec: one comparison step of the top-1 nearest-neighbor
scan; a later entry replaces the current best only on a strictly greater
score, so ties are broken by insertion order with the earlier insertion
winning (spec section 4.2). -/
def searchStep (q : List ℚ) (best : Option (String × ℚ)) (p : String × List ℚ) :
    Option (String × ℚ) :=
  match best with
  | none => some (p.1, dot q p.2)
  | some b => if b.2 < dot q p.2 then some (p.1, dot q p.2) else some b

/-- Modelled from the spec: `VectorIndex.search(vector, k=1)` returning the
top-scoring (slug, cosine similarity) pair, or `none` on an empty index
(spec section 4.2); `rag/vector_store.py` is not in the source tree. -/
def searchTop1 (st : RagState) (q : List ℚ) : Option (String × ℚ) :=
  (st.idMap.zip st.vectors).foldl (searchStep q) none

/-- Characters kept by slug normalization: letters (lowercased) and digits. -/
def slugAlnum (c : Char) : Bool := c.isAlpha || c.isDigit

/-- Split a label's characters at spaces into words, lowercasing kept
characters and dropping punctuation. -/
def slugWords : List Char → List (List Char)
  | [] => [[]]
  | c :: cs =>
      match slugWords cs with
      | [] => [if slugAlnum c then [c.toLower] else []]
      | w :: rest =>
          if c = ' ' then [] :: w :: rest
          else (if slugAlnum c then c.toLower :: w else w) :: rest

/-- Join words with single underscore separators. -/
def joinWords : List (List Char) → List Char
  | [] => []
  | [w] => w
  | w :: ws => w ++ '_' :: joinWords ws

/-- Modelled from the spec: label-to-slug normalization (spec section 4.4 step 1
and `src/docs/retrieval_specs.md` section 4): lowercase, punctuation removed,
whitespace collapsed to single underscore separators. The backend normalizer
is not in the source tree. -/
def slugify (label : String) : String :=
  String.mk (joinWords ((slugWords label.data).filter (fun w => !w.isEmpty)))

/-- Membership test of a slug in the MetadataStore, the dedup check of spec
section 4.4 step 2. -/
def hasSlug (st : RagState) (slug : String) : Bool :=
  st.metadata.any (fun e => e.slug == slug)

/-- Result of `confirmAndIngest`, from the contract of spec section 4.4 and the
`ingestionDetails` shape of `backendClient.ts`. -/
structure IngestResult where
  slug : String
  wasDuplicate : Bool
  newCollectionSize : Nat
deriving DecidableEq

/-- Typed ingestion failures of spec sections 4.4 and 7. -/
inductive IngestError
  | persistenceFailure
deriving DecidableEq

/-- Entry constructed for a confirmed ingestion; the asset path is recorded
only when the caller keeps the asset. -/
def mkEntry (slug label : String) (v : List ℚ) (src : Source) (keep : Bool) : Entry :=
  ⟨slug, label, v, if keep then some ("posters/" ++ slug) else none, src⟩

/-- Modelled from the spec: `IngestionManager.confirmAndIngest` (spec section
4.4); the backend ingestion module is not in the source tree, the frontend
calls it through `confirmAndIngest` of `backendClient.ts`.  Steps: normalize
the label to a slug; if the slug already exists return `wasDuplicate = true`
without mutating state; otherwise embed the image and append vector, id
mapping, metadata record and optional asset in one atomic transaction.  The
`persistOk` argument models whether the durable write-to-temporary-then-rename
step completes; when it does not, the transaction is rolled back and the
pre-call state is what any reload observes. -/
def confirmAndIngest (embed : Image → List ℚ) (st : RagState) (img : Image)
    (label : String) (src : Source) (keepAsset : Bool) (persistOk : Bool) :
    Except IngestError IngestResult × RagState :=
  let slug := slugify label
  if hasSlug st slug then
    (Except.ok ⟨slug, true, st.vectors.length⟩, st)
  else
    let v := embed img
    let st' : RagState :=
      ⟨st.vectors ++ [v], st.idMap ++ [slug],
       st.metadata ++ [mkEntry slug label v src keepAsset],
       if keepAsset then st.assets ++ [slug] else st.assets⟩
    if persistOk then (Except.ok ⟨slug, false, st'.vectors.length⟩, st')
    else (Except.error IngestError.persistenceFailure, st)

/-- Load-time failure of spec sections 4.2 and 7. -/
inductive LoadError
  | indexCorrupt
deriving DecidableEq

/-- Modelled from the spec: loading the persisted artifacts as a single unit of
consistency; the loader verifies equal cardinality between vectors, id mapping
and metadata and refuses to serve queries otherwise (spec sections 4.2 and 6). -/
def load (vectors : List (List ℚ)) (idMap : List String) (metadata : List Entry)
    (assets : List String) : Except LoadError RagState :=
  if vectors.length = idMap.length ∧ idMap.length = metadata.length then
    Except.ok ⟨vectors, idMap, metadata, assets⟩
  else Except.error LoadError.indexCorrupt

/-- The frontend's three identification modes, from `backendClient.ts`
(`'hybrid' | 'rag-only' | 'gemini-only'`). -/
inductive IdentificationMode
  | hybrid
  | ragOnly
  | geminiOnly
deriving DecidableEq

/-- Query parameters the frontend attaches to `/api/identify`. -/
structure IdentifyRequest where
  forceRag : Bool
  similarityThreshold : Option ℚ
deriving DecidableEq

/-- Request building of `identifyPosterViaBackend` (`backendClient.ts` lines
53 to 61): `rag-only` sends `force_rag=true`; `gemini-only` sends
`similarity_threshold=1.0` (the comment there calls it an impossible
threshold that forces Gemini); `hybrid` sends no parameters. -/
def buildIdentifyRequest : IdentificationMode → IdentifyRequest
  | IdentificationMode.hybrid => ⟨false, none⟩
  | IdentificationMode.ragOnly => ⟨true, none⟩
  | IdentificationMode.geminiOnly => ⟨false, some 1⟩

/-- Engine that produced an identification, the `identificationMethod`
(`'rag' | 'gemini'`) of the backend response. -/
inductive Engine
  | rag
  | gemini
deriving DecidableEq

/-- Identification answer of the Router, from the identify contract of spec
section 6 and `BackendIdentifyResponse` of `backendClient.ts`. -/
structure IdentifyResult where
  slug : String
  title : String
  engine : Engine
  needsConfirmation : Bool
  topScore : Option ℚ
deriving DecidableEq

/-- Canonical label stored for a slug, looked up in the MetadataStore. -/
def titleOf (st : RagState) (slug : String) : String :=
  ((st.metadata.find? (fun e => e.slug == slug)).map Entry.canonicalLabel).getD ""

/-- Threshold actually applied by the backend: the request's
`similarity_threshold` parameter when present, the configured default
otherwise. -/
def effectiveThreshold (T : ℚ) (req : IdentifyRequest) : ℚ :=
  req.similarityThreshold.getD T

/-- Modelled from the spec: the Router's identify path (spec section 4.3,
`src/docs/retrieval_specs.md` section 6); backend `router.py` is not in the
source tree.  Embed the image, search the index for the top-1 match, and
compare its score `s` with the threshold `T`: `s ≥ T` yields a CONFIDENT local
answer with `engine = rag`, otherwise (or on an empty index) the external
classifier is invoked and its answer is emitted with `engine = gemini` and
`needsConfirmation = true`; with `force_rag` an inconclusive search reports no
match instead of escalating.  Read-only: the state is not touched. -/
def routerIdentify (embed : Image → List ℚ) (classifyExternal : Image → String)
    (T : ℚ) (req : IdentifyRequest) (st : RagState) (img : Image) : IdentifyResult :=
  let thr := effectiveThreshold T req
  match searchTop1 st (embed img) with
  | some p =>
      if thr ≤ p.2 then ⟨p.1, titleOf st p.1, Engine.rag, false, some p.2⟩
      else if req.forceRag then ⟨"", "", Engine.rag, false, some p.2⟩
      else ⟨slugify (classifyExternal img), classifyExternal img, Engine.gemini,
            true, some p.2⟩
  | none =>
      if req.forceRag then ⟨"", "", Engine.rag, false, none⟩
      else ⟨slugify (classifyExternal img), classifyExternal img, Engine.gemini,
            true, none⟩

/-- Pending ingestion the app stores when a result needs confirmation
(`pendingIngestion` in `App.tsx`). -/
structure PendingIngestion where
  img : Image
  title : String
  source : Source
deriving DecidableEq

/-- App-level state relevant to the collection: the backend collection plus the
confirmation dialog state of `App.tsx`. -/
structure AppModel where
  rag : RagState
  pending : Option PendingIngestion
  dialogOpen : Bool
deriving DecidableEq

/-- User-driven events of `App.tsx`: selecting a file (`handleFileSelect`),
confirming the ingestion dialog (`handleConfirmIngest`), cancelling it
(`handleCancelIngest`). -/
inductive AppEvent
  | fileSelect (img : Image)
  | confirmIngest (saveImage : Bool)
  | cancelIngest
deriving DecidableEq

/-- Step function of the frontend flow in `App.tsx`: `handleFileSelect` only
calls the identify endpoint and, when the result carries
`needsConfirmation`, opens the dialog with a pending ingestion;
`handleConfirmIngest` is the only path that calls the confirm-and-ingest
endpoint, and does nothing when no ingestion is pending; on an ingestion
error the dialog stays open.  The backend collection changes only through
`confirmAndIngest`. -/
def appStep (embed : Image → List ℚ) (classifyExternal : Image → String) (T : ℚ)
    (mode : IdentificationMode) (persistOk : Bool) (m : AppModel) :
    AppEvent → AppModel
  | AppEvent.fileSelect img =>
      let r := routerIdentify embed classifyExternal T (buildIdentifyRequest mode) m.rag img
      if r.needsConfirmation then
        ⟨m.rag, some ⟨img, r.title, Source.gemini⟩, true⟩
      else ⟨m.rag, m.pending, m.dialogOpen⟩
  | AppEvent.confirmIngest saveImage =>
      match m.pending with
      | none => m
      | some p =>
          match confirmAndIngest embed m.rag p.img p.title p.source saveImage persistOk with
          | (Except.ok _, st') => ⟨st', none, false⟩
          | (Except.error _, st') => ⟨st', m.pending, m.dialogOpen⟩
  | AppEvent.cancelIngest => ⟨m.rag, none, false⟩

/-- Outcome of a `fetch` call as observed by the TypeScript client: the request
itself can fail (network error), or a response arrives with an `ok` flag and a
body whose JSON parse can fail (`none`). -/
inductive FetchOutcome (β : Type)
  | networkFailure
  | response (ok : Bool) (body : Option β)
deriving DecidableEq

/-- Embedding of `fetchThemesByTitle` (`backendClient.ts` lines 187 to 210),
abstracted over the element type of `themeData`.  The body is the parsed JSON:
`none` models a JSON parse failure, `some themeData` a parsed object whose
`themeData` field may be absent or null (inner `none`).  A network failure, a
non-ok status (the thrown error is caught by the same handler) and a parse
failure all return the empty list; otherwise the result is
`data.themeData || []`. -/
def fetchThemesByTitle {α : Type} : FetchOutcome (Option (List α)) → List α
  | FetchOutcome.networkFailure => []
  | FetchOutcome.response ok body =>
      if ok = false then []
      else
        match body with
        | none => []
        | some themeData => themeData.getD []

/-- Parsed body of the YouTube search endpoint response, from
`searchYouTubeViaBackend` in `backendClient.ts`: a success flag, a message and
the video identifier (absent when the backend includes none). -/
structure YouTubeSearchBody where
  success : Bool
  message : String
  videoId : Option String
deriving DecidableEq

/-- Embedding of `searchYouTubeViaBackend` (`backendClient.ts` lines 219 to
250): a network failure returns `none` (caught, not thrown); a non-ok status
throws inside the `try` and the catch returns `none`; a JSON parse failure
likewise; a parsed body with `success = false` returns `none`; otherwise the
result is `data.videoId`. -/
def searchYouTubeViaBackend : FetchOutcome YouTubeSearchBody → Option String
  | FetchOutcome.networkFailure => none
  | FetchOutcome.response ok body =>
      if ok = false then none
      else
        match body with
        | none => none
        | some b => if b.success = false then none else b.videoId

/-- File metadata the upload component inspects: MIME type and size in bytes. -/
structure UploadFile where
  fileType : String
  size : Nat
deriving DecidableEq

/-- Embedding of `validateAndPassFile` of the FileUpload component
(`src/unnamed/part_005`): a file whose MIME type does not start with
`image/` is rejected with an error message, a file larger than 10 MB is
rejected with an error message, and only otherwise is `onFileSelect`
invoked with the file (modelled as the `ok` result). -/
def validateAndPassFile (f : UploadFile) : Except String UploadFile :=
  if ¬ (f.fileType.startsWith "image/") then
    Except.error "Please upload a valid image file (JPEG, PNG, WEBP)."
  else if f.size > 10 * 1024 * 1024 then
    Except.error "File size too large. Please upload an image under 10MB."
  else Except.ok f

/-- Fixed embedder used for concrete witnesses: every image maps to the
L2-normalized vector `[1, 0]`. -/
def exEmbed : Image → List ℚ := fun _ => [1, 0]

/-- Fixed external classifier used for concrete witnesses. -/
def exClassify : Image → String := fun _ => "Other Show"

/-- Collection with one entry whose similarity to `exEmbed` images is exactly
7/10, sitting exactly on the default threshold. -/
def boundaryState : RagState :=
  ⟨[[7/10, 0]], ["boundary_show"],
   [⟨"boundary_show", "Boundary Show", [7/10, 0], none, Source.gemini⟩], []⟩

/-- Collection with one entry whose embedding coincides with the embedding of
every `exEmbed` image (similarity exactly 1). -/
def dupState : RagState :=
  ⟨[[1, 0]], ["other"],
   [⟨"other", "Other", [1, 0], none, Source.gemini⟩], []⟩

section Helpers

variable (embed : Image → List ℚ) (st : RagState) (img : Image) (label : String)
  (src : Source) (keepAsset persistOk : Bool)

/-- State obtained by appending one confirmed entry to all parallel stores. -/
def appendEntry : RagState :=
  ⟨st.vectors ++ [embed img], st.idMap ++ [slugify label],
   st.metadata ++ [mkEntry (slugify label) label (embed img) src keepAsset],
   if keepAsset then st.assets ++ [slugify label] else st.assets⟩

theorem confirmAndIngest_dup (h : hasSlug st (slugify label) = true) :
    confirmAndIngest embed st img label src keepAsset persistOk
      = (Except.ok ⟨slugify label, true, st.vectors.length⟩, st) := by
  simp [confirmAndIngest, h]

theorem confirmAndIngest_fresh (h : hasSlug st (slugify label) = false) :
    confirmAndIngest embed st img label src keepAsset true
      = (Except.ok ⟨slugify label, false, st.vectors.length + 1⟩,
         appendEntry embed st img label src keepAsset) := by
  simp [confirmAndIngest, h, appendEntry]

theorem confirmAndIngest_rollback (h : hasSlug st (slugify label) = false) :
    confirmAndIngest embed st img label src keepAsset false
      = (Except.error IngestError.persistenceFailure, st) := by
  simp [confirmAndIngest, h]

theorem confirmAndIngest_state_cases :
    (confirmAndIngest embed st img label src keepAsset persistOk).2 = st
      ∨ (confirmAndIngest embed st img label src keepAsset persistOk).2
          = appendEntry embed st img label src keepAsset := by
  by_cases h : hasSlug st (slugify label)
  · left
    rw [confirmAndIngest_dup embed st img label src keepAsset persistOk h]
  · cases hp : persistOk
    · left
      rw [confirmAndIngest_rollback embed st img label src keepAsset (by simpa using h)]
    · right
      rw [confirmAndIngest_fresh embed st img label src keepAsset (by simpa using h)]

theorem consistent_appendEntry (h : consistent st) :
    consistent (appendEntry embed st img label src keepAsset) := by
  obtain ⟨h1, h2⟩ := h
  constructor <;> simp [appendEntry, h1, h2]

theorem consistent_ingest (h : consistent st) :
    consistent (confirmAndIngest embed st img label src keepAsset persistOk).2 := by
  rcases confirmAndIngest_state_cases embed st img label src keepAsset persistOk with hc | hc
  · rwa [hc]
  · rw [hc]
    exact consistent_appendEntry embed st img label src keepAsset h

end Helpers

/-- C1: every `confirmAndIngest` call is all-or-nothing: the post-call state
(and hence what any reload observes, the durable write being
write-to-temporary-then-atomic-rename) is either exactly the pre-call state
or the pre-call state with the vector, the id mapping, the metadata record
and the optional asset appended together, the success report carrying the new
size; and whenever the durable write step is interrupted
(`persistOk = false`), the observable state is exactly the pre-call state,
with the vector count unchanged, and the caller sees either the retryable
`persistenceFailure` or the mutation-free duplicate report. -/
theorem confirmAndIngest_atomic (embed : Image → List ℚ) (st : RagState)
    (img : Image) (label : String) (src : Source) (keepAsset persistOk : Bool) :
    ((confirmAndIngest embed st img label src keepAsset persistOk).2 = st
      ∨ ((confirmAndIngest embed st img label src keepAsset persistOk).2.vectors
            = st.vectors ++ [embed img]
          ∧ (confirmAndIngest embed st img label src keepAsset persistOk).2.idMap
            = st.idMap ++ [slugify label]
          ∧ (confirmAndIngest embed st img label src keepAsset persistOk).2.metadata
            = st.metadata ++ [mkEntry (slugify label) label (embed img) src keepAsset]
          ∧ (confirmAndIngest embed st img label src keepAsset persistOk).1
            = Except.ok ⟨slugify label, false, st.vectors.length + 1⟩))
    ∧ (confirmAndIngest embed st img label src keepAsset false).2 = st
    ∧ (confirmAndIngest embed st img label src keepAsset false).2.vectors.length
        = st.vectors.length
    ∧ ((confirmAndIngest embed st img label src keepAsset false).1
          = Except.error IngestError.persistenceFailure
        ∨ (confirmAndIngest embed st img label src keepAsset false).1
          = Except.ok ⟨slugify label, true, st.vectors.length⟩) := by
  refine ⟨?_, ?_⟩
  · by_cases h : hasSlug st (slugify label)
    · left
      rw [confirmAndIngest_dup embed st img label src keepAsset persistOk h]
    · cases hp : persistOk
      · left
        rw [confirmAndIngest_rollback embed st img label src keepAsset (by simpa using h)]
      · right
        rw [confirmAndIngest_fresh embed st img label src keepAsset (by simpa using h)]
        simp [appendEntry]
  · by_cases h : hasSlug st (slugify label)
    · rw [confirmAndIngest_dup embed st img label src keepAsset false h]
      simp
    · rw [confirmAndIngest_rollback embed st img label src keepAsset (by simpa using h)]
      simp

/-- C2: the three counts (vectors in the VectorIndex, metadata records,
id-mapping entries) agree after every completed operation: they are preserved
by every `confirmAndIngest` call, by every step of the identify/confirm flow,
and the loader only ever produces a state in which they agree, refusing
mismatched artifacts as corrupt. -/
theorem counts_consistent (embed : Image → List ℚ)
    (classifyExternal : Image → String) (T : ℚ) (mode : IdentificationMode)
    (persistOk : Bool) (st : RagState) (h : consistent st) :
    (∀ img label src keepAsset pOk,
        consistent (confirmAndIngest embed st img label src keepAsset pOk).2)
    ∧ (∀ pending dialogOpen e,
        consistent ((appStep embed classifyExternal T mode persistOk
          ⟨st, pending, dialogOpen⟩ e).rag))
    ∧ (∀ vectors idMap metadata assets st₂,
        load vectors idMap metadata assets = Except.ok st₂ → consistent st₂) := by
  refine ⟨fun img label src keepAsset pOk =>
    consistent_ingest embed st img label src keepAsset pOk h, ?_, ?_⟩
  · intro pending dialogOpen e
    cases e with
    | fileSelect img =>
        simp only [appStep]
        split <;> exact h
    | confirmIngest saveImage =>
        simp only [appStep]
        cases pending with
        | none => exact h
        | some p =>
            have hcases := consistent_ingest embed st p.img p.title p.source
              saveImage persistOk h
            simp only []
            rcases hres : confirmAndIngest embed st p.img p.title p.source
              saveImage persistOk with ⟨r, st₂⟩
            cases r <;> simpa [hres] using hcases
    | cancelIngest => exact h
  · intro vectors idMap metadata assets st₂ hld
    unfold load at hld
    split at hld
    · cases hld
      exact ‹_ ∧ _›
    · cases hld

/-- C2 witness: the consistency preservation theorem applied to the empty
collection, whose three counts agree. -/
theorem counts_consistent_witness :
    consistent (confirmAndIngest exEmbed emptyState 0 "Example Title"
      Source.gemini true true).2 :=
  ((counts_consistent exEmbed exClassify (7/10) IdentificationMode.hybrid true
    emptyState (by decide)).1) 0 "Example Title" Source.gemini true true

/-- C3: whenever the local top-1 search yields score `s`, the hybrid identify
path classifies the call as CONFIDENT and emits the local match with
`engine = rag` exactly when `s ≥ T`; the boundary is inclusive, so `s = T` is
served locally and only `s < T` invokes the external classifier. -/
theorem threshold_boundary (embed : Image → List ℚ)
    (classifyExternal : Image → String) (T : ℚ) (st : RagState) (img : Image)
    (slug : String) (s : ℚ)
    (h : searchTop1 st (embed img) = some (slug, s)) :
    ((routerIdentify embed classifyExternal T
        (buildIdentifyRequest IdentificationMode.hybrid) st img).engine
        = Engine.rag ↔ T ≤ s)
    ∧ (T ≤ s → routerIdentify embed classifyExternal T
          (buildIdentifyRequest IdentificationMode.hybrid) st img
          = ⟨slug, titleOf st slug, Engine.rag, false, some s⟩)
    ∧ ((routerIdentify embed classifyExternal T
          (buildIdentifyRequest IdentificationMode.hybrid) st img).engine
          = Engine.gemini ↔ s < T) := by
  by_cases hT : T ≤ s
  · refine ⟨?_, ?_, ?_⟩ <;>
      simp [routerIdentify, h, buildIdentifyRequest, effectiveThreshold, hT,
        not_lt.mpr hT]
  · refine ⟨?_, ?_, ?_⟩ <;>
      simp [routerIdentify, h, buildIdentifyRequest, effectiveThreshold, hT,
        not_le.mp hT]

/-- C3 witness: on a collection whose single entry scores exactly 7/10 against
the query, identify with threshold exactly 7/10 returns the local match. -/
theorem threshold_boundary_witness :
    searchTop1 boundaryState (exEmbed 0) = some ("boundary_show", 7/10)
    ∧ routerIdentify exEmbed exClassify (7/10)
        (buildIdentifyRequest IdentificationMode.hybrid) boundaryState 0
        = ⟨"boundary_show", "Boundary Show", Engine.rag, false, some (7/10)⟩ := by
  have h : searchTop1 boundaryState (exEmbed 0) = some ("boundary_show", 7/10) := by
    norm_num +decide [searchTop1, searchStep, dot, boundaryState, exEmbed]
  refine ⟨h, ?_⟩
  have main := threshold_boundary exEmbed exClassify (7/10) boundaryState 0
    "boundary_show" (7/10) h
  rw [main.2.1 (le_refl _)]
  norm_num +decide [titleOf, boundaryState]

/-- C4 counterexample: the frontend implements `gemini-only` not by skipping
local search but by sending `similarity_threshold=1.0`; on a collection whose
entry matches the query with similarity exactly 1, identify in `gemini-only`
mode still performs the local search, trusts it, and returns the local match
(`engine = rag`, no confirmation requested) — the external classifier is not
invoked, refuting both "local search is skipped entirely" and "the external
classifier is always invoked". -/
theorem externalOnly_counterexample :
    buildIdentifyRequest IdentificationMode.geminiOnly = ⟨false, some 1⟩
    ∧ routerIdentify exEmbed exClassify (7/10)
        (buildIdentifyRequest IdentificationMode.geminiOnly) dupState 0
        = ⟨"other", "Other", Engine.rag, false, some 1⟩ := by
  constructor
  · rfl
  · norm_num +decide [routerIdentify, searchTop1, searchStep, dot, dupState,
      exEmbed, effectiveThreshold, buildIdentifyRequest, titleOf]

/-- C4 amended: in `gemini-only` mode the frontend requests identify with
`similarity_threshold=1.0` and no force-RAG flag, so the local
nearest-neighbor search still runs; the external classifier is invoked on
every input except when the local top-1 similarity reaches 1.0, in which case
the local match is emitted with `engine = rag`. -/
theorem externalOnly_amended (embed : Image → List ℚ)
    (classifyExternal : Image → String) (T : ℚ) (st : RagState) (img : Image) :
    (routerIdentify embed classifyExternal T
        (buildIdentifyRequest IdentificationMode.geminiOnly) st img).engine
      = Engine.rag
    ↔ ∃ p, searchTop1 st (embed img) = some p ∧ 1 ≤ p.2 := by
  cases hsr : searchTop1 st (embed img) with
  | none =>
      simp [routerIdentify, hsr, buildIdentifyRequest, effectiveThreshold]
  | some p =>
      by_cases h1 : (1 : ℚ) ≤ p.2
      · simp [routerIdentify, hsr, buildIdentifyRequest, effectiveThreshold, h1]
      · simp only [routerIdentify, hsr, buildIdentifyRequest,
          effectiveThreshold, Option.getD_some, if_neg h1, Bool.false_eq_true,
          if_false]
        constructor
        · intro hengine
          exact absurd hengine (by simp)
        · rintro ⟨q, hq, hq1⟩
          cases hq
          exact absurd hq1 h1

theorem hasSlug_appendEntry (embed : Image → List ℚ) (st : RagState)
    (img : Image) (label : String) (src : Source) (keepAsset : Bool) :
    hasSlug (appendEntry embed st img label src keepAsset) (slugify label) = true := by
  simp [hasSlug, appendEntry, mkEntry]

/-- C5: ingesting the same image under the same confirmed label twice (from a
state that does not already hold the label's slug, with the durable write
completing) reports `wasDuplicate = false` on the first call and
`wasDuplicate = true` on the second, the second call leaves the state exactly
as the first call left it, and the collection grows by exactly one entry
across the two calls. -/
theorem ingest_idempotent (embed : Image → List ℚ) (st : RagState)
    (img : Image) (label : String) (src : Source) (keepAsset : Bool)
    (h : hasSlug st (slugify label) = false) :
    (confirmAndIngest embed st img label src keepAsset true).1
      = Except.ok ⟨slugify label, false, st.vectors.length + 1⟩
    ∧ (confirmAndIngest embed
        (confirmAndIngest embed st img label src keepAsset true).2
        img label src keepAsset true).1
      = Except.ok ⟨slugify label, true, st.vectors.length + 1⟩
    ∧ (confirmAndIngest embed
        (confirmAndIngest embed st img label src keepAsset true).2
        img label src keepAsset true).2
      = (confirmAndIngest embed st img label src keepAsset true).2
    ∧ (confirmAndIngest embed st img label src keepAsset true).2.vectors.length
      = st.vectors.length + 1 := by
  have hfirst := confirmAndIngest_fresh embed st img label src keepAsset h
  have hdup := confirmAndIngest_dup embed
    (appendEntry embed st img label src keepAsset) img label src keepAsset true
    (hasSlug_appendEntry embed st img label src keepAsset)
  have hlen : (appendEntry embed st img label src keepAsset).vectors.length
      = st.vectors.length + 1 := by
    simp [appendEntry]
  rw [hfirst]
  simp [hdup, hlen]

/-- C5 witness: the idempotence theorem applied to the empty collection with
the label "Example Title". -/
theorem ingest_idempotent_witness :
    (confirmAndIngest exEmbed emptyState 0 "Example Title" Source.gemini true true).1
      = Except.ok ⟨"example_title", false, 1⟩
    ∧ (confirmAndIngest exEmbed
        (confirmAndIngest exEmbed emptyState 0 "Example Title" Source.gemini true true).2
        0 "Example Title" Source.gemini true true).1
      = Except.ok ⟨"example_title", true, 1⟩
    ∧ (confirmAndIngest exEmbed
        (confirmAndIngest exEmbed emptyState 0 "Example Title" Source.gemini true true).2
        0 "Example Title" Source.gemini true true).2
      = (confirmAndIngest exEmbed emptyState 0 "Example Title" Source.gemini true true).2
    ∧ (confirmAndIngest exEmbed emptyState 0 "Example Title" Source.gemini true true).2.vectors.length
      = 1 := by
  have main := ingest_idempotent exEmbed emptyState 0 "Example Title"
    Source.gemini true (by decide)
  have hslug : slugify "Example Title" = "example_title" := by decide
  rw [hslug] at main
  simpa [emptyState] using main

theorem foldl_searchStep_lt (q : List ℚ) (s : ℚ) (l : List (String × List ℚ)) :
    ∀ acc : Option (String × ℚ),
      (∀ p ∈ l, dot q p.2 < s) →
      (acc = none ∨ ∃ b, acc = some b ∧ b.2 < s) →
      (l.foldl (searchStep q) acc = none
        ∨ ∃ b, l.foldl (searchStep q) acc = some b ∧ b.2 < s) := by
  induction l with
  | nil =>
      intro acc _ hacc
      simpa using hacc
  | cons p l ih =>
      intro acc hl hacc
      simp only [List.foldl_cons]
      apply ih
      · intro r hr
        exact hl r (List.mem_cons_of_mem p hr)
      · right
        rcases hacc with hnone | ⟨b, hb, hbs⟩
        · exact ⟨(p.1, dot q p.2), by simp [searchStep, hnone],
            hl p (List.mem_cons_self p l)⟩
        · rw [hb]
          by_cases hlt : b.2 < dot q p.2
          · exact ⟨(p.1, dot q p.2), by simp [searchStep, hlt],
              hl p (List.mem_cons_self p l)⟩
          · exact ⟨b, by simp [searchStep, hlt], hbs⟩

theorem searchTop1_appendEntry (embed : Image → List ℚ) (st : RagState)
    (img : Image) (label : String) (src : Source) (keepAsset : Bool)
    (hlen : st.idMap.length = st.vectors.length)
    (hall : ∀ w ∈ st.vectors, dot (embed img) w < dot (embed img) (embed img)) :
    searchTop1 (appendEntry embed st img label src keepAsset) (embed img)
      = some (slugify label, dot (embed img) (embed img)) := by
  have hzip : (appendEntry embed st img label src keepAsset).idMap.zip
      (appendEntry embed st img label src keepAsset).vectors
      = st.idMap.zip st.vectors ++ [(slugify label, embed img)] := by
    simp only [appendEntry]
    rw [List.zip_append hlen]
    rfl
  have hinv := foldl_searchStep_lt (embed img) (dot (embed img) (embed img))
    (st.idMap.zip st.vectors) none
    (fun p hp => hall p.2 (List.of_mem_zip hp).2) (Or.inl rfl)
  unfold searchTop1
  rw [hzip, List.foldl_append]
  rcases hinv with hnone | ⟨b, hb, hbs⟩
  · rw [hnone]
    simp [searchStep]
  · rw [hb]
    simp [searchStep, hbs]

theorem titleOf_appendEntry (embed : Image → List ℚ) (st : RagState)
    (img : Image) (label : String) (src : Source) (keepAsset : Bool)
    (hfresh : hasSlug st (slugify label) = false) :
    titleOf (appendEntry embed st img label src keepAsset) (slugify label)
      = label := by
  have hnone : st.metadata.find? (fun e => e.slug == slugify label) = none := by
    rw [List.find?_eq_none]
    intro e he
    have := (List.any_eq_false.mp hfresh) e he
    simpa using this
  simp [titleOf, appendEntry, List.find?_append, hnone, mkEntry]

/-- C6 counterexample: ingesting an image under the label "Example Title"
into a collection that already holds a different slug with an identical
embedding does return `slug = "example_title"`, but the immediately
following identify resolves the tie by insertion order and returns the
earlier entry's slug "other", not "example_title". -/
theorem roundtrip_counterexample :
    (confirmAndIngest exEmbed dupState 0 "Example Title" Source.gemini true true).1
      = Except.ok ⟨"example_title", false, 2⟩
    ∧ (routerIdentify exEmbed exClassify (7/10)
        (buildIdentifyRequest IdentificationMode.hybrid)
        (confirmAndIngest exEmbed dupState 0 "Example Title" Source.gemini true true).2
        0).slug = "other"
    ∧ "other" ≠ "example_title" := by
  have hslug : slugify "Example Title" = "example_title" := by decide
  refine ⟨?_, ?_, by decide⟩
  · norm_num +decide [confirmAndIngest, hasSlug, dupState, hslug]
  · norm_num +decide [routerIdentify, searchTop1, searchStep, dot,
      effectiveThreshold, buildIdentifyRequest, confirmAndIngest, hasSlug,
      dupState, exEmbed, titleOf, mkEntry, hslug]

/-- C6 amended: the round trip holds whenever the confirmed label's slug is
new to the collection and no pre-existing vector scores at least as high
against the image as the image's own (normalized) embedding: then
identify immediately after `confirmAndIngest(image, "…")` returns the new
slug with `engine = rag` and top score exactly 1 ≥ 0.99.  If an earlier
entry ties (equal embedding), the inclusive earlier-wins tie-break returns
the earlier slug instead. -/
theorem roundtrip_amended (embed : Image → List ℚ)
    (classifyExternal : Image → String) (T : ℚ) (st : RagState) (img : Image)
    (label : String) (src : Source) (keepAsset : Bool)
    (hfresh : hasSlug st (slugify label) = false)
    (hcons : consistent st)
    (hnorm : dot (embed img) (embed img) = 1)
    (hall : ∀ w ∈ st.vectors, dot (embed img) w < 1)
    (hT : T ≤ 1) :
    routerIdentify embed classifyExternal T
        (buildIdentifyRequest IdentificationMode.hybrid)
        (confirmAndIngest embed st img label src keepAsset true).2 img
      = ⟨slugify label, label, Engine.rag, false, some 1⟩
    ∧ (99/100 : ℚ) ≤ 1 := by
  have hst : (confirmAndIngest embed st img label src keepAsset true).2
      = appendEntry embed st img label src keepAsset := by
    rw [confirmAndIngest_fresh embed st img label src keepAsset hfresh]
  have hsearch := searchTop1_appendEntry embed st img label src keepAsset
    hcons.1.symm (by rw [hnorm]; exact hall)
  rw [hnorm] at hsearch
  refine ⟨?_, by norm_num⟩
  rw [hst]
  simp [routerIdentify, hsearch, buildIdentifyRequest, effectiveThreshold, hT,
    titleOf_appendEntry embed st img label src keepAsset hfresh]

/-- C6 witness: the amended round trip applied to the empty collection with
the label "Example Title" and a normalized embedding. -/
theorem roundtrip_amended_witness :
    routerIdentify exEmbed exClassify (7/10)
        (buildIdentifyRequest IdentificationMode.hybrid)
        (confirmAndIngest exEmbed emptyState 0 "Example Title" Source.gemini true true).2
        0
      = ⟨"example_title", "Example Title", Engine.rag, false, some 1⟩
    ∧ (99/100 : ℚ) ≤ 1 := by
  have hnorm : dot (exEmbed 0) (exEmbed 0) = 1 := by
    norm_num [dot, exEmbed]
  have main := roundtrip_amended exEmbed exClassify (7/10) emptyState 0
    "Example Title" Source.gemini true (by decide) (by decide) hnorm
    (by simp [emptyState]) (by norm_num)
  have hslug : slugify "Example Title" = "example_title" := by decide
  rw [hslug] at main
  exact main

/-- C7: the identify path never mutates the collection: selecting a file (which
runs identify) and cancelling the dialog leave the collection untouched; an
identify answer asks for confirmation exactly when it came from the external
classifier, surfacing only the opportunity to ingest; and the one event that
can change the collection is the caller-initiated confirm, which does so
through `confirmAndIngest` on the pending item. -/
theorem identify_never_ingests (embed : Image → List ℚ)
    (classifyExternal : Image → String) (T : ℚ) (mode : IdentificationMode)
    (persistOk : Bool) (m : AppModel) :
    (∀ img, (appStep embed classifyExternal T mode persistOk m
        (AppEvent.fileSelect img)).rag = m.rag)
    ∧ (appStep embed classifyExternal T mode persistOk m
        AppEvent.cancelIngest).rag = m.rag
    ∧ (∀ req st img,
        (routerIdentify embed classifyExternal T req st img).needsConfirmation
          = true
        ↔ (routerIdentify embed classifyExternal T req st img).engine
          = Engine.gemini)
    ∧ (∀ saveImage,
        (appStep embed classifyExternal T mode persistOk m
            (AppEvent.confirmIngest saveImage)).rag = m.rag
        ∨ ∃ p, m.pending = some p
            ∧ (appStep embed classifyExternal T mode persistOk m
                (AppEvent.confirmIngest saveImage)).rag
              = (confirmAndIngest embed m.rag p.img p.title p.source saveImage
                  persistOk).2) := by
  refine ⟨?_, rfl, ?_, ?_⟩
  · intro img
    simp only [appStep]
    split <;> rfl
  · intro req st img
    unfold routerIdentify
    cases searchTop1 st (embed img) <;>
      simp only [] <;> split <;> try split
    all_goals simp
  · intro saveImage
    cases hp : m.pending with
    | none =>
        left
        simp [appStep, hp]
    | some p =>
        right
        refine ⟨p, rfl, ?_⟩
        simp only [appStep, hp]
        rcases hres : confirmAndIngest embed m.rag p.img p.title p.source
          saveImage persistOk with ⟨r, st₂⟩
        cases r <;> simp

/-- C8: a failure of the external title-to-metadata provider is non-fatal: the
theme fetch returns the empty collection on a network failure, on a non-ok
response status, on an unparseable body and on an absent `themeData` field,
and only a successfully parsed `themeData` list is passed through — no error
is ever propagated to the caller. -/
theorem themes_graceful (α : Type) :
    @fetchThemesByTitle α FetchOutcome.networkFailure = []
    ∧ (∀ body, @fetchThemesByTitle α (FetchOutcome.response false body) = [])
    ∧ @fetchThemesByTitle α (FetchOutcome.response true none) = []
    ∧ @fetchThemesByTitle α (FetchOutcome.response true (some none)) = []
    ∧ (∀ l, @fetchThemesByTitle α (FetchOutcome.response true (some (some l))) = l) := by
  refine ⟨rfl, fun body => rfl, rfl, rfl, fun l => rfl⟩

/-- C9: the upload component passes a file to the identification callback
exactly when its MIME type starts with `image/` and its size is at most
10 × 1024 × 1024 bytes; every other file is rejected with an error message
and never reaches the identify pipeline. -/
theorem upload_validation (f : UploadFile) :
    (validateAndPassFile f = Except.ok f
      ↔ (f.fileType.startsWith "image/" = true ∧ f.size ≤ 10 * 1024 * 1024))
    ∧ ((∃ msg, validateAndPassFile f = Except.error msg)
      ↔ (f.fileType.startsWith "image/" = false ∨ 10 * 1024 * 1024 < f.size)) := by
  by_cases h1 : f.fileType.startsWith "image/"
  · by_cases h2 : f.size > 10 * 1024 * 1024
    · constructor
      · simp [validateAndPassFile, h1, h2, Nat.not_le.mpr h2]
      · simp [validateAndPassFile, h1, h2]
    · constructor
      · simp [validateAndPassFile, h1, h2, Nat.not_lt.mp h2]
      · simp [validateAndPassFile, h1, h2, Nat.not_lt.mp h2]
  · constructor
    · simp [validateAndPassFile, h1, Bool.of_not_eq_true h1]
    · simp [validateAndPassFile, h1, Bool.of_not_eq_true h1]

/-- C10: the YouTube search client is total: it returns either a video
identifier or `none`, and it returns `none` on a network failure, on a non-ok
response status, on an unparseable body and on a backend-reported miss
(`success = false`); only a successful parsed body yields its `videoId`. -/
theorem youtubeSearch_total :
    (∀ o, searchYouTubeViaBackend o = none
        ∨ ∃ v, searchYouTubeViaBackend o = some v)
    ∧ searchYouTubeViaBackend FetchOutcome.networkFailure = none
    ∧ (∀ body, searchYouTubeViaBackend (FetchOutcome.response false body) = none)
    ∧ searchYouTubeViaBackend (FetchOutcome.response true none) = none
    ∧ (∀ b, searchYouTubeViaBackend (FetchOutcome.response true (some b))
        = if b.success then b.videoId else none) := by
  refine ⟨?_, rfl, fun body => rfl, rfl, ?_⟩
  · intro o
    cases h : searchYouTubeViaBackend o with
    | none => exact Or.inl rfl
    | some v => exact Or.inr ⟨v, rfl⟩
  · intro b
    cases hb : b.success <;> simp [searchYouTubeViaBackend, hb]

end MiKyoku
